/-
Verification of the crawler core of ots-crawl-3d against its specification.

The definitions below are a shallow embedding of src/app/modules/crawler.py
(class BuildingCrawler) and of the configuration default in src/app/config.py.
Strings are modelled as List Char; Python/JSON values as the inductive PyVal,
with numeric values carried as their textual rendering (the crawler never does
arithmetic on them, it only interpolates them into strings and passes them
through to the CSV sink). Fallible Python operations are modelled with
Except Unit (the single error value stands for the raised exception, whose
identity the crawler never inspects: every handler is a bare except Exception).
-/
import Mathlib

namespace OtsCrawl

/-- Convert a Lean string literal to the List Char representation used
throughout this development. -/
def toL (s : String) : List Char := s.data

/-- Python/JSON values as handled by BuildingCrawler. A dict is an association
list of key/value pairs; keys coming from the json module are unique, and
lookup returns the first binding. Numbers keep their textual rendering. -/
inductive PyVal : Type where
  | none : PyVal
  | bool : Bool → PyVal
  | num : List Char → PyVal
  | str : List Char → PyVal
  | list : List PyVal → PyVal
  | obj : List (List Char × PyVal) → PyVal

/-- Lookup of a key in a modelled Python dict. -/
def lookupKey (k : List Char) : List (List Char × PyVal) → Option PyVal
  | [] => Option.none
  | (k2, v) :: rest => if k2 = k then some v else lookupKey k rest

/-- Python d.get(key): returns the bound value, or None when the key is
absent; raises AttributeError (modelled as Except.error) when the receiver is
not a dict. -/
def pyGet (v : PyVal) (k : List Char) : Except Unit PyVal :=
  match v with
  | PyVal.obj fields => Except.ok ((lookupKey k fields).getD PyVal.none)
  | _ => Except.error ()

/-- Python d.get(key, default): like pyGet but with an explicit default for an
absent key. -/
def pyGetD (v : PyVal) (k : List Char) (d : PyVal) : Except Unit PyVal :=
  match v with
  | PyVal.obj fields => Except.ok ((lookupKey k fields).getD d)
  | _ => Except.error ()

/-- The apostrophe character used by Python repr around strings. -/
def quoteChar : Char := Char.ofNat 39

/-- The opening brace character of a Python dict repr. -/
def lbraceChar : Char := Char.ofNat 123

/-- The closing brace character of a Python dict repr. -/
def rbraceChar : Char := Char.ofNat 125

mutual

/-- Python repr of a value, used for values nested inside containers when the
f-string in generate_url stringifies a container. -/
def pyRepr : PyVal → List Char
  | PyVal.none => toL "None"
  | PyVal.bool b => if b then toL "True" else toL "False"
  | PyVal.num s => s
  | PyVal.str s => quoteChar :: (s ++ [quoteChar])
  | PyVal.list xs => '[' :: (pyReprElems xs ++ [']'])
  | PyVal.obj fs => lbraceChar :: (pyReprFields fs ++ [rbraceChar])

/-- Comma-separated reprs of the elements of a Python list. -/
def pyReprElems : List PyVal → List Char
  | [] => []
  | [x] => pyRepr x
  | x :: y :: rest => pyRepr x ++ toL ", " ++ pyReprElems (y :: rest)

/-- Comma-separated key/value reprs of the fields of a Python dict. -/
def pyReprFields : List (List Char × PyVal) → List Char
  | [] => []
  | [(k, v)] => (quoteChar :: (k ++ [quoteChar])) ++ toL ": " ++ pyRepr v
  | (k, v) :: kv2 :: rest =>
      (quoteChar :: (k ++ [quoteChar])) ++ toL ": " ++ pyRepr v ++ toL ", "
        ++ pyReprFields (kv2 :: rest)

end

/-- Python str of a value, as applied by the f-string interpolation in
generate_url: identical to repr except that a top-level string is unquoted. -/
def pyStr : PyVal → List Char
  | PyVal.str s => s
  | v => pyRepr v

/-- Whether a numeric literal denotes zero (best effort over the textual
rendering); only used to decide Python truthiness of numbers. -/
def isZeroLit (s : List Char) : Bool :=
  s.any (fun c => c == '0')
    && s.all (fun c => c == '0' || c == '.' || c == '-' || c == '+' || c == 'e' || c == 'E')

/-- Python truthiness of a modelled value. -/
def pyTruthy : PyVal → Bool
  | PyVal.none => false
  | PyVal.bool b => b
  | PyVal.num s => !(isZeroLit s)
  | PyVal.str s => !(s.isEmpty)
  | PyVal.list xs => !(xs.isEmpty)
  | PyVal.obj fs => !(fs.isEmpty)

/-- The key "properties" used by generate_url. -/
def propertiesKey : List Char := toL "properties"

/-- The key "lat" used by generate_url. -/
def latKey : List Char := toL "lat"

/-- The key "lng" used by generate_url. -/
def lngKey : List Char := toL "lng"

/-- The key "result" used by response_url. -/
def resultKey : List Char := toL "result"

/-- The key "objects" used by response_url. -/
def objectsKey : List Char := toL "objects"

/-- The marker substring identifying the 3D-data endpoint, crawler.py line 143. -/
def mode3d : List Char := ['m', 'o', 'd', 'e', '=', '3', 'd']

/-- The camera parameter marker of the URL template, as an explicit character
list so that partial reduction under simp is immediate. -/
def cameraPat : List Char := ['c', 'a', 'm', 'e', 'r', 'a', '=']

/-- The fixed tail of the URL template after the longitude: the zoom constant
"19.00" and the trailing ",0.0,0.0,d", crawler.py lines 103 and 104. -/
def zoomTail : List Char :=
  [',', '1', '9', '.', '0', '0', ',', '0', '.', '0', ',', '0', '.', '0', ',', 'd']

/-- BuildingCrawler.generate_url (crawler.py lines 90 to 104): reads
feature.get("properties").get("lat") and .get("lng") and interpolates them into
the fixed template crawler_url + "?camera=" + lat + "," + lng + ",19.00,0.0,0.0,d".
The first argument models settings.crawler_url (default "" in config.py). An
AttributeError from calling .get on a non-dict (in particular on None when the
properties key is absent) is the error case. -/
def generate_url (crawler_url : List Char) (feature : PyVal) : Except Unit (List Char) :=
  match pyGet feature propertiesKey with
  | Except.error e => Except.error e
  | Except.ok props =>
    match pyGet props latKey with
    | Except.error e => Except.error e
    | Except.ok lat =>
      match pyGet props lngKey with
      | Except.error e => Except.error e
      | Except.ok lng =>
        Except.ok (crawler_url ++ ('?' :: cameraPat) ++ pyStr lat ++ [','] ++ pyStr lng ++ zoomTail)

/-- The URL generation phase of BuildingCrawler.run (crawler.py line 179): the
list comprehension evaluates generate_url on every feature in order; the first
exception aborts the whole comprehension, and run has no handler around it. -/
def generate_urls (crawler_url : List Char) : List PyVal → Except Unit (List (List Char))
  | [] => Except.ok []
  | f :: rest =>
    match generate_url crawler_url f with
    | Except.error e => Except.error e
    | Except.ok u =>
      match generate_urls crawler_url rest with
      | Except.error e => Except.error e
      | Except.ok us => Except.ok (u :: us)

/-- Decidable substring containment, modelling the Python expression
pat in s on strings. -/
def containsSub (pat : List Char) : List Char → Bool
  | [] => pat.isEmpty
  | c :: rest => pat.isPrefixOf (c :: rest) || containsSub pat rest

/-- The resource types aborted by is_abort_url, crawler.py line 118. -/
def resourceAbortTypes : List (List Char) := [toL "image", toL "font", toL "media"]

/-- The image extensions of crawler.py line 119. -/
def imageExts : List (List Char) :=
  [toL ".jpg", toL ".jpeg", toL ".png", toL ".gif", toL ".webp", toL ".svg"]

/-- The audio and video extensions of crawler.py line 120. -/
def mediaExts : List (List Char) :=
  [toL ".mp3", toL ".mp4", toL ".avi", toL ".mov", toL ".mkv", toL ".webm"]

/-- The font extensions of crawler.py line 121. -/
def fontExts : List (List Char) :=
  [toL ".woff", toL ".woff2", toL ".ttf", toL ".eot", toL ".otf"]

/-- BuildingCrawler.is_abort_url (crawler.py lines 106 to 122). Note that the
Python test is ext in request.url, that is substring containment anywhere in
the URL, not a suffix test. -/
def is_abort_url (resource_type url : List Char) : Bool :=
  resourceAbortTypes.contains resource_type
    || imageExts.any (fun e => containsSub e url)
    || mediaExts.any (fun e => containsSub e url)
    || fontExts.any (fun e => containsSub e url)

/-- Modelled from the spec (section 4.2 and claim C4): the RequestFilter as the
spec words it, with the URL tests being ends-with tests instead of the
containment tests the source performs. Written only to be compared against
is_abort_url. -/
def spec_shouldAbort (resource_type url : List Char) : Bool :=
  resourceAbortTypes.contains resource_type
    || (imageExts ++ mediaExts ++ fontExts).any (fun e => e.isSuffixOf url)

/-- The try block of BuildingCrawler.response_url (crawler.py lines 144 to
148), restricted to its data flow: the body argument is the parsed JSON body of
the response, with Option.none standing for a body that response.json() fails
to parse. The result is the list of objects handed to writer.writerows (an
empty list when the objects value is absent, empty or otherwise falsy), or an
error when any step of the extraction raises. -/
def extractTry (body : Option PyVal) : Except Unit (List PyVal) :=
  match body with
  | Option.none => Except.error ()
  | Option.some j =>
    match pyGetD j resultKey (PyVal.obj []) with
    | Except.error e => Except.error e
    | Except.ok r =>
      match pyGetD r objectsKey (PyVal.list []) with
      | Except.error e => Except.error e
      | Except.ok (PyVal.list os) => Except.ok os
      | Except.ok v => if pyTruthy v then Except.error () else Except.ok []

/-- The records that the response_url handler hands to the sink for one
response: empty unless the URL contains the mode=3d marker and the extraction
succeeds. -/
def extractedRecords (url : List Char) (body : Option PyVal) : List PyVal :=
  if containsSub mode3d url then
    match extractTry body with
    | Except.ok os => os
    | Except.error _ => []
  else []

/-- The outcome of the try block of response_url including the sink write: the
sinkFails argument models an I/O failure raised inside writer.writerows, which
only runs when the extracted list is truthy (non-empty). -/
def tryBlock (body : Option PyVal) (sinkFails : Bool) : Except Unit Unit :=
  match extractTry body with
  | Except.error e => Except.error e
  | Except.ok os =>
    if os.isEmpty then Except.ok ()
    else if sinkFails then Except.error () else Except.ok ()

/-- BuildingCrawler.response_url as seen by its caller (crawler.py lines 136 to
151): the handler does nothing for a URL without the marker, and wraps the
whole try block in except Exception, which logs and returns; so the handler
itself never raises. -/
def response_url (url : List Char) (body : Option PyVal) (sinkFails : Bool) : Except Unit Unit :=
  if containsSub mode3d url then
    match tryBlock body sinkFails with
    | Except.ok _ => Except.ok ()
    | Except.error _ => Except.ok ()
  else Except.ok ()

/-- The fixed CSV header of the sink, crawler.py lines 67 to 81. -/
def fieldnames : List (List Char) :=
  [toL "bearing", toL "camera", toL "elevation", toL "endDate", toL "id",
   toL "location", toL "maxZoom", toL "minZoom", toL "model", toL "name",
   toL "scale", toL "startDate", toL "types"]

/-- csv.DictWriter conversion of one row dict to the cell list written to the
file: the writer was constructed with the fixed fieldnames and the default
extrasaction, so a row holding any key outside fieldnames raises ValueError
(modelled as Option.none), as does a row that is not a dict; missing fields
fall back to the restval default None. -/
def dictToRow (row : PyVal) : Option (List PyVal) :=
  match row with
  | PyVal.obj fs =>
    if fs.all (fun kv => fieldnames.contains kv.1)
      then Option.some (fieldnames.map (fun k => (lookupKey k fs).getD PyVal.none))
      else Option.none
  | _ => Option.none

/-- The rows that writer.writerows actually appends to the output file for a
given row list: writerows converts and writes row by row, so the rows before
the first failing row are persisted and the failing row and all later rows are
not. -/
def writtenRows : List PyVal → List (List PyVal)
  | [] => []
  | r :: rest =>
    match dictToRow r with
    | Option.some cells => cells :: writtenRows rest
    | Option.none => []

/-- Fuel-indexed batching loop: with fuel at least the length of the list this
computes the consecutive chunks of size k that the loop of
BuildingCrawler.run (crawler.py lines 181 to 186) forms, for k at least 1.
Each step consumes at least the head element, so fuel equal to the length of
the list always suffices. -/
def batchesFuel (k : Nat) : Nat → List α → List (List α)
  | _, [] => []
  | 0, _ :: _ => []
  | fuel + 1, x :: xs => (x :: xs.take (k - 1)) :: batchesFuel k fuel (xs.drop (k - 1))

/-- The batches formed by BuildingCrawler.run: the loop
for i in range(0, len(urls), num_pages) takes urls[i : i + num_pages] per
iteration and awaits the whole batch with asyncio.gather before the next
iteration. Python raises ValueError on a zero step, so this model is only
meaningful for k at least 1, which every claim hypothesises. -/
def batches (k : Nat) (l : List α) : List (List α) := batchesFuel k l.length l

/-- The largest number of page sessions simultaneously open during a run.
Under the batch barrier of run (asyncio.gather awaits an entire batch before
the next one starts) the sessions open at any instant are a subset of the
current batch, so the maximum over batches of the batch size bounds the
number of simultaneously open pages. -/
def maxSimultaneousOpen (k : Nat) (urls : List α) : Nat :=
  ((batches k urls).map List.length).foldr Nat.max 0

/-- Abstract outcome environment for one BuildingCrawler.process_page call:
which of its fallible steps raise. newPageFails covers context.new_page()
(line 161, evaluated before the try); routeFails, gotoFails and waitFails
cover page.route, page.goto and page.wait_for_load_state inside the try
(lines 163 to 166). page.close in the finally block is assumed not to raise. -/
structure PageEnv where
  newPageFails : Bool
  routeFails : Bool
  gotoFails : Bool
  waitFails : Bool

/-- Observable outcome of one process_page call: whether a page was opened,
whether it was closed again, whether the except block logged a failure, and
whether an exception escaped to the caller. -/
structure PageOutcome where
  pageOpened : Bool
  pageClosed : Bool
  errorLogged : Bool
  escaped : Bool

/-- BuildingCrawler.process_page control flow (crawler.py lines 153 to 170):
page = await context.new_page() runs before the try, so its failure escapes
with no page opened; inside the try any failure is caught by except Exception
and logged, and the finally block always closes the page. -/
def process_page (env : PageEnv) : PageOutcome :=
  if env.newPageFails then
    { pageOpened := false, pageClosed := false, errorLogged := false, escaped := true }
  else
    { pageOpened := true, pageClosed := true,
      errorLogged := env.routeFails || env.gotoFails || env.waitFails,
      escaped := false }

/-- Numeric characters: the characters that can occur in the textual rendering
of a Python int or float (digits, sign, decimal point, exponent marker). -/
def numericChar (c : Char) : Bool :=
  c.isDigit || c == '.' || c == '-' || c == '+' || c == 'e'

/-- Count of occurrences of a pattern inside a character list, one count per
start position at which the pattern is a prefix of the rest of the list. -/
def countOccs (pat : List Char) : List Char → Nat
  | [] => 0
  | c :: rest => (if pat.isPrefixOf (c :: rest) then 1 else 0) + countOccs pat rest

/-- A pattern not containing the question mark is a prefix of a ++ qm :: b
exactly when it is a prefix of a alone: it cannot span the question mark. -/
theorem isPrefixOf_append_qm (pat : List Char) (hq : '?' ∉ pat) (a b : List Char) :
    pat.isPrefixOf (a ++ '?' :: b) = pat.isPrefixOf a := by
  induction pat generalizing a with
  | nil => simp [List.isPrefixOf]
  | cons p ps ih =>
    cases a with
    | nil =>
      have hp : ¬(p == '?') = true := by
        intro h
        exact hq (by simp [beq_iff_eq] at h; simp [h])
      simp [List.isPrefixOf, hp]
    | cons q a2 =>
      have hq2 : '?' ∉ ps := fun h => hq (List.mem_cons_of_mem p h)
      simp [List.isPrefixOf, ih hq2]

/-- Occurrence counting splits at a question mark when the pattern contains no
question mark: no occurrence can straddle it. -/
theorem countOccs_append_qm (p : Char) (ps : List Char) (hq : '?' ∉ p :: ps) :
    ∀ (a b : List Char),
      countOccs (p :: ps) (a ++ '?' :: b) = countOccs (p :: ps) a + countOccs (p :: ps) b := by
  intro a b
  induction a with
  | nil =>
    have hp : ¬(p == '?') = true := by
      intro h
      exact hq (by simp [beq_iff_eq] at h; simp [h])
    simp [countOccs, List.isPrefixOf, hp]
  | cons x a2 ih =>
    have hpre := isPrefixOf_append_qm (p :: ps) hq (x :: a2) b
    simp only [List.cons_append] at hpre
    simp only [List.cons_append, countOccs, List.append_eq, ih, hpre]
    omega

/-- A pattern whose head character does not occur in a list occurs nowhere in
that list. -/
theorem countOccs_eq_zero (p : Char) (ps : List Char) :
    ∀ (l : List Char), p ∉ l → countOccs (p :: ps) l = 0 := by
  intro l h
  induction l with
  | nil => rfl
  | cons c rest ih =>
    have hp : ¬(p == c) = true := by
      intro hb
      exact h (by simp [beq_iff_eq] at hb; simp [hb])
    have h2 : p ∉ rest := fun hm => h (List.mem_cons_of_mem c hm)
    simp [countOccs, List.isPrefixOf, hp, ih h2]

/-- Joining the fuel-indexed batches recovers the original list whenever the
fuel is at least its length. -/
theorem batchesFuel_flatten (k : Nat) :
    ∀ (fuel : Nat) (l : List α), l.length ≤ fuel → (batchesFuel k fuel l).flatten = l := by
  intro fuel
  induction fuel with
  | zero =>
    intro l hl
    cases l with
    | nil => rfl
    | cons x xs => simp at hl
  | succ n ih =>
    intro l hl
    cases l with
    | nil => rfl
    | cons x xs =>
      have hd : (xs.drop (k - 1)).length ≤ n := by
        simp only [List.length_drop]
        simp only [List.length_cons] at hl
        omega
      simp only [batchesFuel, List.flatten_cons, ih (xs.drop (k - 1)) hd, List.cons_append]
      simp [List.take_append_drop]

/-- Every fuel-indexed batch has size at most k, for positive k. -/
theorem batchesFuel_mem_length (k : Nat) (hk : 0 < k) :
    ∀ (fuel : Nat) (l : List α), ∀ b ∈ batchesFuel k fuel l, b.length ≤ k := by
  intro fuel
  induction fuel with
  | zero =>
    intro l b hb
    cases l with
    | nil => simp [batchesFuel] at hb
    | cons x xs => simp [batchesFuel] at hb
  | succ n ih =>
    intro l b hb
    cases l with
    | nil => simp [batchesFuel] at hb
    | cons x xs =>
      simp only [batchesFuel, List.mem_cons] at hb
      rcases hb with rfl | hb
      · simp only [List.length_cons, List.length_take]
        omega
      · exact ih _ b hb

/-- Batching the empty list gives no batches, for any fuel. -/
theorem batchesFuel_nil (k : Nat) (fuel : Nat) : batchesFuel k fuel ([] : List α) = [] := by
  cases fuel <;> rfl

/-- All fuel-indexed batches except possibly the last have size exactly k,
for positive k and sufficient fuel. -/
theorem batchesFuel_getD (k : Nat) (hk : 0 < k) :
    ∀ (fuel : Nat) (l : List α), l.length ≤ fuel →
      ∀ i, i + 1 < (batchesFuel k fuel l).length →
        ((batchesFuel k fuel l).getD i []).length = k := by
  intro fuel
  induction fuel with
  | zero =>
    intro l hl i hi
    cases l with
    | nil => simp [batchesFuel] at hi
    | cons x xs => simp at hl
  | succ n ih =>
    intro l hl i hi
    cases l with
    | nil => simp [batchesFuel] at hi
    | cons x xs =>
      have hd : (xs.drop (k - 1)).length ≤ n := by
        simp only [List.length_drop]
        simp only [List.length_cons] at hl
        omega
      cases i with
      | zero =>
        simp only [batchesFuel, List.length_cons] at hi
        have hne : batchesFuel k n (xs.drop (k - 1)) ≠ [] := by
          intro h
          rw [h] at hi
          simp at hi
        have hxs : xs.drop (k - 1) ≠ [] := by
          intro h
          rw [h] at hne
          exact hne (batchesFuel_nil k n)
        have hlen : k - 1 ≤ xs.length := by
          by_contra hcon
          push_neg at hcon
          exact hxs (List.drop_eq_nil_of_le (Nat.le_of_lt hcon))
        simp only [batchesFuel, List.getD_cons_zero, List.length_cons, List.length_take]
        omega
      | succ j =>
        simp only [batchesFuel, List.getD_cons_succ]
        apply ih (xs.drop (k - 1)) hd j
        simp only [batchesFuel, List.length_cons] at hi
        omega

/-- The fold of Nat.max over a list is bounded by any bound on its members. -/
theorem foldr_max_le (l : List Nat) (k : Nat) (h : ∀ x ∈ l, x ≤ k) :
    l.foldr Nat.max 0 ≤ k := by
  induction l with
  | nil => simp
  | cons a l2 ih =>
    simp only [List.foldr_cons, Nat.max_le]
    exact ⟨h a (List.mem_cons_self a l2), ih fun x hx => h x (List.mem_cons_of_mem a hx)⟩

/-- Rows written by writerows stop exactly at the first failing row: the rows
before it are all persisted and everything from it on is dropped. -/
theorem writtenRows_stop (bad : PyVal) (post : List PyVal)
    (hbad : dictToRow bad = Option.none) :
    ∀ (pre : List PyVal), (∀ r ∈ pre, (dictToRow r).isSome = true) →
      writtenRows (pre ++ bad :: post) = writtenRows pre
      ∧ (writtenRows pre).length = pre.length := by
  intro pre
  induction pre with
  | nil =>
    intro _
    simp [writtenRows, hbad]
  | cons r rest ih =>
    intro hpre
    obtain ⟨hl, hr⟩ := ih fun x hx => hpre x (List.mem_cons_of_mem r hx)
    obtain ⟨cells, hc⟩ := Option.isSome_iff_exists.mp (hpre r (List.mem_cons_self r rest))
    simp [writtenRows, hc, hl, hr]

/-- A response URL carrying the mode=3d marker, used as a concrete input. -/
def markerUrl : List Char := toL "https://e.com/geo?mode=3d&x=1"

/-- A parsed response body whose result.objects holds exactly one record. -/
def oneRecordBody : PyVal :=
  PyVal.obj [(resultKey, PyVal.obj [(objectsKey,
    PyVal.list [PyVal.obj [(toL "id", PyVal.str (toL "a"))]])])]

/-- C1: the extractor yields records only when the response URL contains the
substring mode=3d; for a matching response whose parsed body has
result.objects = [o1, ..., on] it hands exactly that list to the sink, element
for element and in array order, with no validation of the fields; when
result.objects is absent (so the defaults kick in) it hands over nothing. -/
theorem extraction_marker_passthrough (url : List Char) (b : Option PyVal)
    (fs rfs : List (List Char × PyVal)) (os : List PyVal) :
    (containsSub mode3d url = false → extractedRecords url b = [])
    ∧ (containsSub mode3d url = true →
        (lookupKey resultKey fs = Option.some (PyVal.obj rfs) →
          lookupKey objectsKey rfs = Option.some (PyVal.list os) →
            extractedRecords url (Option.some (PyVal.obj fs)) = os)
        ∧ (lookupKey resultKey fs = Option.none →
            extractedRecords url (Option.some (PyVal.obj fs)) = [])
        ∧ (lookupKey resultKey fs = Option.some (PyVal.obj rfs) →
            lookupKey objectsKey rfs = Option.none →
              extractedRecords url (Option.some (PyVal.obj fs)) = [])) := by
  refine ⟨fun hm => by simp [extractedRecords, hm], fun hm => ⟨?_, ?_, ?_⟩⟩
  · intro h1 h2
    simp [extractedRecords, extractTry, pyGetD, hm, h1, h2]
  · intro h1
    simp [extractedRecords, extractTry, pyGetD, hm, h1, lookupKey]
  · intro h1 h2
    simp [extractedRecords, extractTry, pyGetD, hm, h1, h2]

/-- C1 witness: the example of the spec, a marked response with two records. -/
theorem extraction_marker_passthrough_witness :
    containsSub mode3d markerUrl = true
    ∧ extractedRecords markerUrl
        (Option.some (PyVal.obj [(resultKey, PyVal.obj [(objectsKey,
          PyVal.list [PyVal.obj [(toL "id", PyVal.str (toL "a"))],
                      PyVal.obj [(toL "id", PyVal.str (toL "b"))]])])]))
      = [PyVal.obj [(toL "id", PyVal.str (toL "a"))],
         PyVal.obj [(toL "id", PyVal.str (toL "b"))]] := by
  refine ⟨by decide, ?_⟩
  exact ((extraction_marker_passthrough markerUrl Option.none
    [(resultKey, PyVal.obj [(objectsKey,
      PyVal.list [PyVal.obj [(toL "id", PyVal.str (toL "a"))],
                  PyVal.obj [(toL "id", PyVal.str (toL "b"))]])])]
    [(objectsKey, PyVal.list [PyVal.obj [(toL "id", PyVal.str (toL "a"))],
                              PyVal.obj [(toL "id", PyVal.str (toL "b"))]])]
    [PyVal.obj [(toL "id", PyVal.str (toL "a"))],
     PyVal.obj [(toL "id", PyVal.str (toL "b"))]]).2 (by decide)).1 rfl rfl

/-- C2: for positive concurrency k the scheduler partitions the ordered target
sequence into consecutive batches: their concatenation is the original
sequence, every batch has size at most k, every batch except possibly the last
has size exactly k (so a 5-element grid with k = 2 gives sizes [2, 2, 1]), and
since a whole batch is awaited before the next one starts, the number of
simultaneously open page sessions never exceeds k. -/
theorem scheduler_batches_bound (k : Nat) (urls : List (List Char)) (hk : 0 < k) :
    (batches k urls).flatten = urls
    ∧ (∀ b ∈ batches k urls, b.length ≤ k)
    ∧ (∀ i, i + 1 < (batches k urls).length → ((batches k urls).getD i []).length = k)
    ∧ maxSimultaneousOpen k urls ≤ k
    ∧ (batches 2 (List.range 5)).map List.length = [2, 2, 1] := by
  refine ⟨batchesFuel_flatten k urls.length urls le_rfl,
    fun b hb => batchesFuel_mem_length k hk urls.length urls b hb,
    fun i hi => batchesFuel_getD k hk urls.length urls le_rfl i hi,
    ?_, by decide⟩
  apply foldr_max_le
  intro x hx
  simp only [List.mem_map] at hx
  obtain ⟨b, hb, rfl⟩ := hx
  exact batchesFuel_mem_length k hk urls.length urls b hb

/-- C2 witness: the batch shape for five targets at concurrency two. -/
theorem scheduler_batches_bound_witness :
    0 < 2
    ∧ ((batches 2 [toL "u1", toL "u2", toL "u3", toL "u4", toL "u5"]).flatten
          = [toL "u1", toL "u2", toL "u3", toL "u4", toL "u5"]
        ∧ (∀ b ∈ batches 2 [toL "u1", toL "u2", toL "u3", toL "u4", toL "u5"], b.length ≤ 2)
        ∧ (∀ i, i + 1 < (batches 2 [toL "u1", toL "u2", toL "u3", toL "u4", toL "u5"]).length →
            ((batches 2 [toL "u1", toL "u2", toL "u3", toL "u4", toL "u5"]).getD i []).length = 2)
        ∧ maxSimultaneousOpen 2 [toL "u1", toL "u2", toL "u3", toL "u4", toL "u5"] ≤ 2
        ∧ (batches 2 (List.range 5)).map List.length = [2, 2, 1]) :=
  ⟨by decide, scheduler_batches_bound 2 [toL "u1", toL "u2", toL "u3", toL "u4", toL "u5"]
    (by decide)⟩

/-- C5: when extraction raises for a marked response (in particular when the
body is not parseable JSON, modelled by Option.none), the error is caught
inside the handler: zero records are handed to the sink and response_url
returns normally, so nothing escapes to the page session or the run. -/
theorem response_errors_swallowed (url : List Char) (body : Option PyVal) (sinkFails : Bool)
    (herr : extractTry body = Except.error ()) :
    extractedRecords url body = [] ∧ response_url url body sinkFails = Except.ok () := by
  cases h : containsSub mode3d url <;>
    simp [extractedRecords, response_url, tryBlock, herr, h]

/-- C5 witness: a marked response with an unparsable body yields no records and
the handler returns normally. -/
theorem response_errors_swallowed_witness :
    extractTry Option.none = Except.error ()
    ∧ (extractedRecords markerUrl Option.none = []
        ∧ response_url markerUrl Option.none false = Except.ok ()) :=
  ⟨rfl, response_errors_swallowed markerUrl Option.none false rfl⟩

/-- C6 counterexample: process_page does not always complete without
propagating: when context.new_page() itself fails (it is evaluated before the
try block, crawler.py line 161), the exception escapes to the caller and no
page was opened. -/
theorem page_open_failure_escapes :
    (process_page ⟨true, false, false, false⟩).escaped = true
    ∧ (process_page ⟨true, false, false, false⟩).pageOpened = false :=
  ⟨rfl, rfl⟩

/-- C6 amended: once the page has been opened, process_page never propagates an
exception and always closes the page, whatever happens during hook
installation, navigation or waiting; only a failure of the page opening itself
escapes, and on that path no page was opened that would need release. -/
theorem page_session_amended (env : PageEnv) :
    (env.newPageFails = false →
      (process_page env).escaped = false ∧ (process_page env).pageClosed = true)
    ∧ (env.newPageFails = true →
      (process_page env).escaped = true ∧ (process_page env).pageOpened = false) := by
  obtain ⟨np, r, g, w⟩ := env
  cases np <;> simp [process_page]

/-- C6 amended witness: a navigation failure is absorbed and the page is still
closed. -/
theorem page_session_amended_witness :
    (process_page ⟨false, false, true, false⟩).escaped = false
    ∧ (process_page ⟨false, false, true, false⟩).pageClosed = true :=
  (page_session_amended ⟨false, false, true, false⟩).1 rfl

/-- C7 counterexample: a failing sink write makes the try block of the handler
raise, yet the handler still returns normally, because writer.writerows is
called inside the same try whose except Exception recovers every per-response
error; the failure therefore never reaches the top-level caller and the crawl
continues. -/
theorem sink_failure_swallowed :
    tryBlock (Option.some oneRecordBody) true = Except.error ()
    ∧ response_url markerUrl (Option.some oneRecordBody) true = Except.ok () := by
  exact ⟨rfl, rfl⟩

/-- C7 amended: a record sink write failure is recovered locally exactly like a
per-response extraction error: for every response the handler catches it, drops
the records of that response, and returns normally, so the run continues and
nothing propagates to the top-level caller. -/
theorem sink_failure_recovered (url : List Char) (body : Option PyVal) :
    response_url url body true = Except.ok () := by
  cases h : containsSub mode3d url <;>
    cases htb : tryBlock body true <;>
      simp [response_url, h, htb]

/-- C3: for a feature carrying numeric lat and lng, generate_url is a pure
function of its inputs returning exactly the template
base ++ "?camera=" ++ lat ++ "," ++ lng ++ ",19.00,0.0,0.0,d", and provided the
configured base itself contains no occurrence of "camera=" (lat and lng cannot,
being numeric renderings), the resulting URL contains exactly one occurrence of
the camera parameter, with latitude before longitude and the fixed zoom token
after them. -/
theorem generate_url_template_unique_camera (base slat slng : List Char)
    (fs pfs : List (List Char × PyVal))
    (hprops : lookupKey propertiesKey fs = Option.some (PyVal.obj pfs))
    (hlat : lookupKey latKey pfs = Option.some (PyVal.num slat))
    (hlng : lookupKey lngKey pfs = Option.some (PyVal.num slng))
    (hbase : countOccs cameraPat base = 0)
    (hlatN : ∀ c ∈ slat, numericChar c = true)
    (hlngN : ∀ c ∈ slng, numericChar c = true) :
    generate_url base (PyVal.obj fs)
      = Except.ok (base ++ ('?' :: cameraPat) ++ slat ++ [','] ++ slng ++ zoomTail)
    ∧ countOccs cameraPat (base ++ ('?' :: cameraPat) ++ slat ++ [','] ++ slng ++ zoomTail) = 1 := by
  constructor
  · simp [generate_url, pyGet, hprops, hlat, hlng, pyStr, pyRepr]
  · have hc_lat : 'c' ∉ slat := fun hm => absurd (hlatN 'c' hm) (by decide)
    have hc_lng : 'c' ∉ slng := fun hm => absurd (hlngN 'c' hm) (by decide)
    have hassoc : base ++ ('?' :: cameraPat) ++ slat ++ [','] ++ slng ++ zoomTail
        = base ++ '?' :: (cameraPat ++ (slat ++ ',' :: (slng ++ zoomTail))) := by
      simp [List.append_assoc]
    rw [hassoc]
    simp only [cameraPat] at hbase ⊢
    rw [countOccs_append_qm 'c' ['a', 'm', 'e', 'r', 'a', '='] (by decide) base _]
    rw [hbase]
    have htail : countOccs ['c', 'a', 'm', 'e', 'r', 'a', '='] (slat ++ ',' :: (slng ++ zoomTail)) = 0 := by
      apply countOccs_eq_zero
      intro hm
      rcases List.mem_append.mp hm with h1 | h2
      · exact hc_lat h1
      · rcases List.mem_cons.mp h2 with h3 | h4
        · exact absurd h3 (by decide)
        · rcases List.mem_append.mp h4 with h5 | h6
          · exact hc_lng h5
          · exact absurd h6 (by decide)
    simp [countOccs, List.isPrefixOf, htail]

/-- C3 witness: a concrete base and coordinate pair. -/
theorem generate_url_template_unique_camera_witness :
    countOccs cameraPat (toL "https://3d.example/map") = 0
    ∧ (generate_url (toL "https://3d.example/map")
          (PyVal.obj [(propertiesKey, PyVal.obj
            [(latKey, PyVal.num (toL "10.5")), (lngKey, PyVal.num (toL "106.7"))])])
        = Except.ok (toL "https://3d.example/map" ++ ('?' :: cameraPat)
            ++ toL "10.5" ++ [','] ++ toL "106.7" ++ zoomTail)
      ∧ countOccs cameraPat (toL "https://3d.example/map" ++ ('?' :: cameraPat)
            ++ toL "10.5" ++ [','] ++ toL "106.7" ++ zoomTail) = 1) :=
  ⟨by decide, generate_url_template_unique_camera (toL "https://3d.example/map")
    (toL "10.5") (toL "106.7")
    [(propertiesKey, PyVal.obj [(latKey, PyVal.num (toL "10.5")),
                                (lngKey, PyVal.num (toL "106.7"))])]
    [(latKey, PyVal.num (toL "10.5")), (lngKey, PyVal.num (toL "106.7"))]
    rfl rfl rfl (by decide) (by decide) (by decide)⟩

/-- C4 counterexample: the claim states that shouldAbort is true exactly when
the category matches or the URL ends with one of the extensions; but the code
tests substring containment, so a document request whose URL merely contains
.jpg in the middle is aborted although it ends with none of the extensions,
refuting the stated equivalence. -/
theorem abort_substring_counterexample :
    is_abort_url (toL "document") (toL "https://example.com/a.jpg?v=1") = true
    ∧ spec_shouldAbort (toL "document") (toL "https://example.com/a.jpg?v=1") = false := by
  decide

/-- C4 amended: shouldAbort returns true if and only if the declared resource
category is image, font or media, or the request URL CONTAINS one of the fixed
extensions as a substring anywhere (not only as a suffix); in particular a
document, script or XHR request whose URL contains none of them is allowed
through. -/
theorem abort_iff_category_or_substring (rt url : List Char) :
    is_abort_url rt url = true ↔
      (rt ∈ resourceAbortTypes
        ∨ (∃ e ∈ imageExts, containsSub e url = true)
        ∨ (∃ e ∈ mediaExts, containsSub e url = true)
        ∨ (∃ e ∈ fontExts, containsSub e url = true)) := by
  simp [is_abort_url, List.contains, List.elem_iff, List.any_eq_true, Bool.or_eq_true, or_assoc]

/-- C8 counterexample: a feature whose properties dict lacks both coordinates
does not make URL synthesis fail with any error: dict.get returns None and the
f-string renders it, so the URL is produced with None in both coordinate
positions and the feature is crawled like any other. -/
theorem missing_coords_no_failure_counterexample :
    generate_url (toL "https://3d.example/map") (PyVal.obj [(propertiesKey, PyVal.obj [])])
      = Except.ok (toL "https://3d.example/map" ++ ('?' :: cameraPat)
          ++ toL "None" ++ [','] ++ toL "None" ++ zoomTail)
    ∧ generate_url (toL "https://3d.example/map") (PyVal.obj [(propertiesKey, PyVal.obj [])])
        ≠ Except.error () := by
  have h1 : generate_url (toL "https://3d.example/map") (PyVal.obj [(propertiesKey, PyVal.obj [])])
      = Except.ok (toL "https://3d.example/map" ++ ('?' :: cameraPat)
          ++ toL "None" ++ [','] ++ toL "None" ++ zoomTail) := by
    simp [generate_url, pyGet, lookupKey, propertiesKey, latKey, lngKey, pyStr, pyRepr]
  exact ⟨h1, by rw [h1]; exact fun h => Except.noConfusion h⟩

/-- C8 amended: a feature whose properties object lacks lat and lng yields the
URL with the string None substituted for both coordinates (no failure, the
feature is not skipped); a feature with no properties object at all makes
generate_url raise AttributeError, and since the URL comprehension in run has
no handler, that single feature aborts URL generation for the entire run
instead of being skipped. -/
theorem missing_coords_amended (base : List Char) (fs pfs gs : List (List Char × PyVal))
    (hprops : lookupKey propertiesKey fs = Option.some (PyVal.obj pfs))
    (hlat : lookupKey latKey pfs = Option.none)
    (hlng : lookupKey lngKey pfs = Option.none)
    (hnoneprops : lookupKey propertiesKey gs = Option.none) :
    generate_url base (PyVal.obj fs)
      = Except.ok (base ++ ('?' :: cameraPat) ++ toL "None" ++ [','] ++ toL "None" ++ zoomTail)
    ∧ generate_url base (PyVal.obj gs) = Except.error ()
    ∧ ∀ (pre post : List PyVal),
        generate_urls base (pre ++ PyVal.obj gs :: post) = Except.error () := by
  have h2 : generate_url base (PyVal.obj gs) = Except.error () := by
    simp [generate_url, pyGet, hnoneprops]
  refine ⟨by simp [generate_url, pyGet, hprops, hlat, hlng, pyStr, pyRepr], h2, ?_⟩
  intro pre post
  induction pre with
  | nil => simp [generate_urls, h2]
  | cons p rest ih =>
    simp only [List.cons_append, generate_urls, List.append_eq]
    cases generate_url base p with
    | error e => rfl
    | ok u => rw [ih]

/-- C8 amended witness: a feature with an empty properties dict and a feature
with no properties key at all. -/
theorem missing_coords_amended_witness :
    lookupKey propertiesKey ([] : List (List Char × PyVal)) = Option.none
    ∧ (generate_url (toL "https://b") (PyVal.obj [(propertiesKey, PyVal.obj [])])
        = Except.ok (toL "https://b" ++ ('?' :: cameraPat)
            ++ toL "None" ++ [','] ++ toL "None" ++ zoomTail)
      ∧ generate_url (toL "https://b") (PyVal.obj []) = Except.error ()
      ∧ ∀ (pre post : List PyVal),
          generate_urls (toL "https://b") (pre ++ PyVal.obj [] :: post) = Except.error ()) :=
  ⟨rfl, missing_coords_amended (toL "https://b")
    [(propertiesKey, PyVal.obj [])] [] [] rfl rfl rfl rfl⟩

/-- C9 counterexample: with the base endpoint unset (the empty default of
Settings.crawler_url), URL synthesis does not fail and does not produce an
empty result: it returns the nonempty URL beginning with the camera query. -/
theorem empty_base_url_counterexample :
    generate_url [] (PyVal.obj [(propertiesKey,
        PyVal.obj [(latKey, PyVal.num (toL "10.5")), (lngKey, PyVal.num (toL "106.7"))])])
      = Except.ok (toL "?camera=10.5,106.7,19.00,0.0,0.0,d")
    ∧ toL "?camera=10.5,106.7,19.00,0.0,0.0,d" ≠ ([] : List Char) := by
  refine ⟨?_, by decide⟩
  have e0 : generate_url [] (PyVal.obj [(propertiesKey,
        PyVal.obj [(latKey, PyVal.num (toL "10.5")), (lngKey, PyVal.num (toL "106.7"))])])
      = Except.ok (([] : List Char) ++ ('?' :: cameraPat) ++ pyStr (PyVal.num (toL "10.5"))
          ++ [','] ++ pyStr (PyVal.num (toL "106.7")) ++ zoomTail) := rfl
  have e1 : pyStr (PyVal.num (toL "10.5")) = toL "10.5" := by simp [pyStr, pyRepr]
  have e2 : pyStr (PyVal.num (toL "106.7")) = toL "106.7" := by simp [pyStr, pyRepr]
  rw [e0, e1, e2]
  exact congrArg Except.ok (by decide)

/-- C9 amended: with the base endpoint unset, URL synthesis still succeeds for
every feature with coordinates, returning the template with an empty base (a
URL that begins with the camera query and is never the empty string); nothing
fails and no empty result is produced. -/
theorem empty_base_url_amended (slat slng : List Char) (fs pfs : List (List Char × PyVal))
    (hprops : lookupKey propertiesKey fs = Option.some (PyVal.obj pfs))
    (hlat : lookupKey latKey pfs = Option.some (PyVal.num slat))
    (hlng : lookupKey lngKey pfs = Option.some (PyVal.num slng)) :
    generate_url [] (PyVal.obj fs)
      = Except.ok (('?' :: cameraPat) ++ slat ++ [','] ++ slng ++ zoomTail)
    ∧ ∀ r, generate_url [] (PyVal.obj fs) = Except.ok r → r ≠ [] := by
  have h1 : generate_url [] (PyVal.obj fs)
      = Except.ok (('?' :: cameraPat) ++ slat ++ [','] ++ slng ++ zoomTail) := by
    simp [generate_url, pyGet, hprops, hlat, hlng, pyStr, pyRepr]
  refine ⟨h1, ?_⟩
  intro r hr
  rw [h1] at hr
  cases hr
  simp

/-- C9 amended witness: the concrete coordinate pair with the empty base. -/
theorem empty_base_url_amended_witness :
    lookupKey latKey [(latKey, PyVal.num (toL "10.5")), (lngKey, PyVal.num (toL "106.7"))]
        = Option.some (PyVal.num (toL "10.5"))
    ∧ (generate_url [] (PyVal.obj [(propertiesKey, PyVal.obj
          [(latKey, PyVal.num (toL "10.5")), (lngKey, PyVal.num (toL "106.7"))])])
        = Except.ok (('?' :: cameraPat) ++ toL "10.5" ++ [','] ++ toL "106.7" ++ zoomTail)
      ∧ ∀ r, generate_url [] (PyVal.obj [(propertiesKey, PyVal.obj
          [(latKey, PyVal.num (toL "10.5")), (lngKey, PyVal.num (toL "106.7"))])])
            = Except.ok r → r ≠ []) :=
  ⟨rfl, empty_base_url_amended (toL "10.5") (toL "106.7")
    [(propertiesKey, PyVal.obj [(latKey, PyVal.num (toL "10.5")),
                                (lngKey, PyVal.num (toL "106.7"))])]
    [(latKey, PyVal.num (toL "10.5")), (lngKey, PyVal.num (toL "106.7"))]
    rfl rfl rfl⟩

/-- C10: per-response persistence is not atomic: the sink writes the objects of
one response row by row against the fixed 13-field header, so when the i-th
object fails to convert (in particular when it holds a key outside the header,
which the dict-based CSV writer rejects), the objects before it remain
appended to the output while the failing object and all later ones are
dropped. -/
theorem sink_rows_prefix_on_failure (pre : List PyVal) (bad : PyVal) (post : List PyVal)
    (hpre : ∀ r ∈ pre, (dictToRow r).isSome = true)
    (hbad : dictToRow bad = Option.none) :
    writtenRows (pre ++ bad :: post) = writtenRows pre
    ∧ (writtenRows pre).length = pre.length
    ∧ fieldnames.length = 13
    ∧ ∀ (gs : List (List Char × PyVal)) (k : List Char) (v : PyVal),
        (k, v) ∈ gs → fieldnames.contains k = false → dictToRow (PyVal.obj gs) = Option.none := by
  obtain ⟨h1, h2⟩ := writtenRows_stop bad post hbad pre hpre
  refine ⟨h1, h2, by decide, ?_⟩
  intro gs k v hkv hnotin
  have hall : gs.all (fun kv => fieldnames.contains kv.1) = false :=
    List.all_eq_false.mpr ⟨(k, v), hkv, by
      show ¬ fieldnames.contains k = true
      rw [hnotin]
      exact Bool.false_ne_true⟩
  have heq : dictToRow (PyVal.obj gs)
      = if gs.all (fun kv => fieldnames.contains kv.1)
          then Option.some (fieldnames.map (fun k2 => (lookupKey k2 gs).getD PyVal.none))
          else Option.none := rfl
  rw [heq, hall]
  simp

/-- C10 witness: one valid row, then a row with a key outside the header, then
another valid row: only the first row is persisted. -/
theorem sink_rows_prefix_on_failure_witness :
    dictToRow (PyVal.obj [(toL "objUrl", PyVal.str (toL "u"))]) = Option.none
    ∧ (writtenRows ([PyVal.obj [(toL "id", PyVal.str (toL "a"))]]
          ++ PyVal.obj [(toL "objUrl", PyVal.str (toL "u"))]
            :: [PyVal.obj [(toL "id", PyVal.str (toL "b"))]])
        = writtenRows [PyVal.obj [(toL "id", PyVal.str (toL "a"))]]
      ∧ (writtenRows [PyVal.obj [(toL "id", PyVal.str (toL "a"))]]).length
          = [PyVal.obj [(toL "id", PyVal.str (toL "a"))]].length
      ∧ fieldnames.length = 13
      ∧ ∀ (gs : List (List Char × PyVal)) (k : List Char) (v : PyVal),
          (k, v) ∈ gs → fieldnames.contains k = false → dictToRow (PyVal.obj gs) = Option.none) :=
  ⟨rfl, sink_rows_prefix_on_failure [PyVal.obj [(toL "id", PyVal.str (toL "a"))]]
    (PyVal.obj [(toL "objUrl", PyVal.str (toL "u"))])
    [PyVal.obj [(toL "id", PyVal.str (toL "b"))]]
    (by decide) rfl⟩

end OtsCrawl
